import Mathlib

/-
Verification of the point-in-time roster reconstruction and scoring core of
the fantasy-climbing-league repository.

The relevant source lives in:
  * src/supabase/functions/calculate-leaderboard/index.ts  (leaderboard)
  * src/unnamed/part_013  — edge function get-team-breakdown
  * src/unnamed/part_012  — edge function get-league-breakdown
  * src/supabase/functions/create-transfer/index.ts        (transfer write path)
  * src/frontend/src/services/api.ts                       (frontend API layer)

Modelling conventions of the shallow embedding:
  * JS `Date` instants are integers (`Instant := Int`); `new Date(s)` on a
    stored timestamp is the identity, and `null` timestamps are `Option.none`.
  * JS numbers used as ranks and climber ids are `Nat`; fantasy points are
    `Nat` before, and `Int` after, the captain multiplier is applied.
  * The captain multiplier is a rational (`Rat`); `Math.floor` is `Int.floor`.
  * Supabase queries are reads of explicit lists held in a state record, with
    the query's `.eq` / `.is` filters applied in the embedding; row mutations
    are pure functions from state to state.
-/

namespace FantasyClimbing

/-- JS `Date` instants, modelled as integers (milliseconds since the epoch). -/
abbrev Instant := Int

/-- A row of the `team_roster` table for one team, as selected by the scoring
functions (`climber_id, is_captain, added_at, removed_at`). -/
structure RosterEntry where
  climber_id : Nat
  is_captain : Bool
  added_at : Instant
  removed_at : Option Instant
deriving DecidableEq, Repr

/-- A row of the `captain_history` table for one team
(`climber_id, set_at, replaced_at`). -/
structure CaptainEntry where
  climber_id : Nat
  set_at : Instant
  replaced_at : Option Instant
deriving DecidableEq, Repr

/-- A row of `event_results` for one event: `(climber_id, rank)`. -/
abbrev ResultRow := Nat × Nat

/-- The `IFSC_POINTS` table of
src/supabase/functions/calculate-leaderboard/index.ts lines 14–95
(ranks 1–80), as an association list. -/
def IFSC_POINTS_80 : List (Nat × Nat) :=
  [(1, 1000), (2, 805), (3, 690), (4, 610), (5, 545), (6, 495), (7, 455),
   (8, 415), (9, 380), (10, 350), (11, 325), (12, 300), (13, 280), (14, 260),
   (15, 240), (16, 220), (17, 205), (18, 185), (19, 170), (20, 155),
   (21, 145), (22, 130), (23, 120), (24, 105), (25, 95), (26, 84), (27, 73),
   (28, 63), (29, 56), (30, 48), (31, 42), (32, 37), (33, 33), (34, 30),
   (35, 27), (36, 24), (37, 21), (38, 19), (39, 17), (40, 15), (41, 14),
   (42, 13), (43, 12), (44, 11), (45, 11), (46, 10), (47, 9), (48, 9),
   (49, 8), (50, 8), (51, 7), (52, 7), (53, 7), (54, 6), (55, 6), (56, 6),
   (57, 5), (58, 5), (59, 5), (60, 4), (61, 4), (62, 4), (63, 4), (64, 3),
   (65, 3), (66, 3), (67, 3), (68, 3), (69, 2), (70, 2), (71, 2), (72, 2),
   (73, 2), (74, 2), (75, 1), (76, 1), (77, 1), (78, 1), (79, 1), (80, 1)]

/-- The 40-entry `IFSC_POINTS` table shared (textually identically) by
src/frontend/src/services/api.ts lines 963–1005, src/unnamed/part_013
lines 13–54 and src/unnamed/part_012. It agrees with the first 40 entries
of `IFSC_POINTS_80`. -/
def IFSC_POINTS_40 : List (Nat × Nat) :=
  [(1, 1000), (2, 805), (3, 690), (4, 610), (5, 545), (6, 495), (7, 455),
   (8, 415), (9, 380), (10, 350), (11, 325), (12, 300), (13, 280), (14, 260),
   (15, 240), (16, 220), (17, 205), (18, 185), (19, 170), (20, 155),
   (21, 145), (22, 130), (23, 120), (24, 105), (25, 95), (26, 84), (27, 73),
   (28, 63), (29, 56), (30, 48), (31, 42), (32, 37), (33, 33), (34, 30),
   (35, 27), (36, 24), (37, 21), (38, 19), (39, 17), (40, 15)]

namespace CalcLeaderboard

/-- `getPointsForRank` of calculate-leaderboard/index.ts line 97–99:
`IFSC_POINTS[rank] ?? (rank > 80 ? 1 : 0)`. -/
def getPointsForRank (rank : Nat) : Nat :=
  (IFSC_POINTS_80.lookup rank).getD (if 80 < rank then 1 else 0)

end CalcLeaderboard

namespace ApiTs

/-- `getPointsForRank` of src/frontend/src/services/api.ts lines 963–1007:
`points[rank] ?? 0`. -/
def getPointsForRank (rank : Nat) : Nat :=
  (IFSC_POINTS_40.lookup rank).getD 0

end ApiTs

namespace GetTeamBreakdown

/-- `getPointsForRank` of src/unnamed/part_013 lines 56–58:
`IFSC_POINTS[rank] ?? (rank > 40 ? 0 : 0)`. -/
def getPointsForRank (rank : Nat) : Nat :=
  (IFSC_POINTS_40.lookup rank).getD (if 40 < rank then 0 else 0)

end GetTeamBreakdown

/-- Association-list lookup misses every key strictly above a bound on the
stored keys. -/
theorem lookup_eq_none_of_bound (l : List (Nat × Nat)) (bound r : Nat)
    (hl : ∀ p ∈ l, p.1 ≤ bound) (hr : bound < r) : l.lookup r = none := by
  induction l with
  | nil => rfl
  | cons p t ih =>
      have h1 : p.1 ≤ bound := hl p (List.mem_cons_self p t)
      have hne : (r == p.1) = false := by
        simp only [beq_eq_false_iff_ne, ne_eq]
        omega
      simp only [List.lookup, hne]
      exact ih fun q hq => hl q (List.mem_cons_of_mem p hq)

/-- Every key of the 80-entry table is at most 80. -/
theorem IFSC_POINTS_80_keys_le : ∀ p ∈ IFSC_POINTS_80, p.1 ≤ 80 := by decide

/-- Every key of the 40-entry table is at most 40. -/
theorem IFSC_POINTS_40_keys_le : ∀ p ∈ IFSC_POINTS_40, p.1 ≤ 40 := by decide

/-- Beyond rank 80 the leaderboard table awards exactly 1 point. -/
theorem lb_points_big {r : Nat} (hr : 80 < r) :
    CalcLeaderboard.getPointsForRank r = 1 := by
  unfold CalcLeaderboard.getPointsForRank
  rw [lookup_eq_none_of_bound IFSC_POINTS_80 80 r IFSC_POINTS_80_keys_le hr]
  simp [hr]

/-- Beyond rank 40 the frontend table awards 0 points. -/
theorem api_points_big {r : Nat} (hr : 40 < r) :
    ApiTs.getPointsForRank r = 0 := by
  unfold ApiTs.getPointsForRank
  rw [lookup_eq_none_of_bound IFSC_POINTS_40 40 r IFSC_POINTS_40_keys_le hr]
  rfl

/-- One step of monotonicity for the leaderboard table. -/
theorem lb_points_step (r : Nat) (h1 : 1 ≤ r) :
    CalcLeaderboard.getPointsForRank (r + 1) ≤ CalcLeaderboard.getPointsForRank r := by
  by_cases h : r ≤ 80
  · have hb : ∀ s < 81, 1 ≤ s →
        CalcLeaderboard.getPointsForRank (s + 1) ≤ CalcLeaderboard.getPointsForRank s := by
      decide
    exact hb r (by omega) h1
  · have hr : 80 < r := by omega
    rw [lb_points_big hr, lb_points_big (by omega : (80 : Nat) < r + 1)]

/-- One step of monotonicity for the frontend table. -/
theorem api_points_step (r : Nat) (h1 : 1 ≤ r) :
    ApiTs.getPointsForRank (r + 1) ≤ ApiTs.getPointsForRank r := by
  by_cases h : r ≤ 40
  · have hb : ∀ s < 41, 1 ≤ s →
        ApiTs.getPointsForRank (s + 1) ≤ ApiTs.getPointsForRank s := by
      decide
    exact hb r (by omega) h1
  · have hr : 40 < r := by omega
    rw [api_points_big hr, api_points_big (by omega : (40 : Nat) < r + 1)]

/-- C9: the points table is monotonically non-increasing; for all
positive-integer ranks `r1 < r2`, `pointsForRank r1 ≥ pointsForRank r2`,
including ranks beyond the table's maximum entry — proved both for the
80-entry leaderboard table (`rank > 80 ↦ 1`) and for the frontend 40-entry
table (`rank > 40 ↦ 0`). -/
theorem points_table_monotone (r1 r2 : Nat) (h1 : 0 < r1) (h12 : r1 < r2) :
    CalcLeaderboard.getPointsForRank r2 ≤ CalcLeaderboard.getPointsForRank r1 ∧
    ApiTs.getPointsForRank r2 ≤ ApiTs.getPointsForRank r1 := by
  have h : r1 + 1 ≤ r2 := h12
  induction r2, h using Nat.le_induction with
  | base => exact ⟨lb_points_step r1 h1, api_points_step r1 h1⟩
  | succ n hn ih =>
      obtain ⟨ihl, ihr⟩ := ih (by omega)
      exact ⟨le_trans (lb_points_step n (by omega)) ihl,
             le_trans (api_points_step n (by omega)) ihr⟩

/-- Witness for C9 at (r1, r2) = (1, 2). -/
theorem points_table_monotone_witness :
    0 < 1 ∧ 1 < 2 ∧
    (CalcLeaderboard.getPointsForRank 2 ≤ CalcLeaderboard.getPointsForRank 1 ∧
     ApiTs.getPointsForRank 2 ≤ ApiTs.getPointsForRank 1) :=
  ⟨by decide, by decide, points_table_monotone 1 2 (by decide) (by decide)⟩

/-! ## Roster timeline

The scoring functions (calculate-leaderboard/index.ts lines 200–212,
src/unnamed/part_013 lines 134–145, src/unnamed/part_012 lines 134–144)
contain the textually identical roster reconstruction loop
`if (addedAt <= eventDate && (!removedAt || removedAt > eventDate))`,
and (lines 219–234 / 147–156 / 147–155 respectively) the identical
captain-history scan that `break`s at the first entry with
`setAt <= eventDate && (!replacedAt || replacedAt > eventDate)`.
They are embedded once and shared. -/

/-- The as-of condition of the roster loop:
`addedAt <= eventDate && (!removedAt || removedAt > eventDate)`. -/
def rosterActiveAt (e : RosterEntry) (d : Instant) : Bool :=
  decide (e.added_at ≤ d) &&
    (match e.removed_at with
     | none => true
     | some r => decide (d < r))

/-- The `activeClimberIds` list accumulated by the roster loop. -/
def activeClimberIds (entries : List RosterEntry) (d : Instant) : List Nat :=
  (entries.filter (fun e => rosterActiveAt e d)).map (fun e => e.climber_id)

/-- The `currentCaptainId` fallback accumulated by the roster loop
(`if (entry.is_captain) currentCaptainId = entry.climber_id`, so the last
active flagged entry wins). -/
def flagCaptain (entries : List RosterEntry) (d : Instant) : Option Nat :=
  entries.foldl
    (fun acc e => if rosterActiveAt e d && e.is_captain then some e.climber_id else acc)
    none

/-- The as-of condition of the captain-history scan:
`setAt <= eventDate && (!replacedAt || replacedAt > eventDate)`. -/
def captainMatchesAt (ch : CaptainEntry) (d : Instant) : Bool :=
  decide (ch.set_at ≤ d) &&
    (match ch.replaced_at with
     | none => true
     | some r => decide (d < r))

/-- The captain-history loop: it overwrites `captainAtEvent` with the first
matching entry and then `break`s, leaving the fallback when no entry
matches. -/
def captainScan (history : List CaptainEntry) (d : Instant) (fallback : Option Nat) :
    Option Nat :=
  match history with
  | [] => fallback
  | ch :: rest =>
      if captainMatchesAt ch d then some ch.climber_id else captainScan rest d fallback

/-- C1: an athlete is in the reconstructed roster as of instant `d` exactly
when some roster entry for that athlete has `added_at ≤ d` and `removed_at`
null or `> d`: addition exactly at `d` counts (inclusive bound) and removal
at or before `d` — including removal exactly at `d` — excludes the athlete
(exclusive bound). -/
theorem roster_asOf_boundary (entries : List RosterEntry) (d : Instant) (c : Nat) :
    c ∈ activeClimberIds entries d ↔
      ∃ e ∈ entries, e.climber_id = c ∧ e.added_at ≤ d ∧
        (e.removed_at = none ∨ ∃ r, e.removed_at = some r ∧ d < r) := by
  unfold activeClimberIds rosterActiveAt
  simp only [List.mem_map, List.mem_filter, Bool.and_eq_true, decide_eq_true_eq]
  constructor
  · rintro ⟨e, ⟨he, hadd, hrem⟩, rfl⟩
    refine ⟨e, he, rfl, hadd, ?_⟩
    cases h : e.removed_at with
    | none => exact Or.inl rfl
    | some r =>
        right
        refine ⟨r, rfl, ?_⟩
        rw [h] at hrem
        exact of_decide_eq_true hrem
  · rintro ⟨e, he, rfl, hadd, hrem⟩
    refine ⟨e, ⟨he, hadd, ?_⟩, rfl⟩
    rcases hrem with h | ⟨r, h, hr⟩
    · rw [h]
    · rw [h]
      exact decide_eq_true hr

/-- C7 counterexample: two open captaincy entries (`set_at` 1 and `set_at` 2)
both satisfy the as-of condition at instant 5; the reader returns the FIRST
stored entry, so storing the `set_at = 1` entry first yields climber 10 (not
the latest-`set_at` climber 20), while the reversed storage order yields
climber 20 — contradicting "selects the one with the latest setAt for every
order". -/
theorem captain_scan_order_counterexample :
    captainMatchesAt ⟨10, 1, none⟩ 5 = true ∧
    captainMatchesAt ⟨20, 2, none⟩ 5 = true ∧
    captainScan [⟨10, 1, none⟩, ⟨20, 2, none⟩] 5 none = some 10 ∧
    captainScan [⟨20, 2, none⟩, ⟨10, 1, none⟩] 5 none = some 20 ∧
    some (10 : Nat) ≠ some 20 := by
  refine ⟨rfl, rfl, rfl, rfl, by decide⟩

/-- C7 (amended): when several captaincy entries satisfy the as-of condition
the reader does not crash (the scan is a total function) and selects the
FIRST matching entry in the stored iteration order — not the one with the
latest `set_at` — falling back to the roster-flag captain when no entry
matches. -/
theorem captain_scan_first_match (history : List CaptainEntry) (d : Instant)
    (fallback : Option Nat) :
    captainScan history d fallback =
      match history.find? (fun ch => captainMatchesAt ch d) with
      | some ch => some ch.climber_id
      | none => fallback := by
  induction history with
  | nil => rfl
  | cons ch rest ih =>
      by_cases h : captainMatchesAt ch d
      · simp [captainScan, h, List.find?_cons_of_pos]
      · rw [captainScan, if_neg h, ih,
          List.find?_cons_of_neg _ (Bool.not_eq_true _ ▸ h)]

/-! ## Event scorer: get-team-breakdown (src/unnamed/part_013) -/

/-- Lookup in a JS object/`Map` built by successive keyed assignments
(`resultsMap[r.climber_id] = r.rank` in part_013 lines 172–175 and part_012,
`new Map(results.map ...)` in api.ts): a later row with the same key
overwrites an earlier one. -/
def jsMapGet (rows : List ResultRow) (k : Nat) : Option Nat :=
  rows.foldl (fun acc r => if r.1 == k then some r.2 else acc) none

namespace GetTeamBreakdown

/-- One athlete's `total_points` in part_013 lines 177–193: rank from the
results map (`?? null`), `basePoints = rank ? getPointsForRank(rank) : 0`,
`multiplier = isCaptain ? captainMultiplier : 1.0` with
`isCaptain = climber.id === captainAtEvent`,
`totalPoints = Math.floor(basePoints * multiplier)`. -/
def totalPoints (mult : Rat) (captainAtEvent : Option Nat)
    (filteredResults : List ResultRow) (c : Nat) : Int :=
  let rank := jsMapGet filteredResults c
  let basePoints : Nat :=
    match rank with
    | some rk => if rk ≠ 0 then getPointsForRank rk else 0
    | none => 0
  let multiplier : Rat := if some c == captainAtEvent then mult else 1
  ⌊(basePoints : Rat) * multiplier⌋

/-- `team_total` for one event in part_013 lines 127–198: reconstruct the
active roster and captain as of the event date, fetch the event results
restricted to the active climbers (the query's `.in("climber_id",
climberIds)`), and sum `total_points` over the roster snapshot.  The source
maps `athleteScores` over the `climbers` rows fetched by `.in("id",
climberIds)` — one row per active roster climber (a foreign key); since the
climber's name and country play no role in the total, the embedding maps
over `climberIds` directly. -/
def team_total (entries : List RosterEntry) (history : List CaptainEntry)
    (results : List ResultRow) (mult : Rat) (d : Instant) : Int :=
  let climberIds := activeClimberIds entries d
  let captainAtEvent := captainScan history d (flagCaptain entries d)
  let filteredResults := results.filter (fun r => climberIds.contains r.1)
  (climberIds.map (fun c => totalPoints mult captainAtEvent filteredResults c)).sum

end GetTeamBreakdown

/-- Restricting the result rows to a set of climbers that contains `c` does
not change the map lookup at `c`. -/
theorem jsMapGet_filter (c : Nat) (p : ResultRow → Bool)
    (hp : ∀ r : ResultRow, r.1 = c → p r = true) (l : List ResultRow) :
    jsMapGet (l.filter p) c = jsMapGet l c := by
  unfold jsMapGet
  suffices h : ∀ acc : Option Nat,
      (l.filter p).foldl (fun acc r => if r.1 == c then some r.2 else acc) acc =
        l.foldl (fun acc r => if r.1 == c then some r.2 else acc) acc from h none
  induction l with
  | nil => intro acc; rfl
  | cons r t ih =>
      intro acc
      by_cases hpr : p r = true
      · rw [List.filter_cons_of_pos hpr, List.foldl_cons, List.foldl_cons]
        exact ih _
      · have hne : (r.1 == c) = false := by
          rw [beq_eq_false_iff_ne]
          intro hrc
          exact hpr (hp r hrc)
        rw [List.filter_cons_of_neg (by simpa using hpr), List.foldl_cons, hne,
          if_neg (by simp)]
        exact ih acc

/-- C2: for every team and event, `team_total` equals the sum, over exactly
the athletes in the roster snapshot as of the event date (no more, no
fewer), of `⌊basePoints * multiplier⌋`, where `basePoints` is the points for
the athlete's rank in the full event results when present and 0 when absent
(did-not-place), and `multiplier` is the captain multiplier exactly for the
captain as of the event date. -/
theorem team_total_eq_sum_over_roster (entries : List RosterEntry)
    (history : List CaptainEntry) (results : List ResultRow) (mult : Rat)
    (d : Instant) :
    GetTeamBreakdown.team_total entries history results mult d =
      ((activeClimberIds entries d).map (fun c =>
        let basePoints : Nat :=
          match jsMapGet results c with
          | some rk => if rk ≠ 0 then GetTeamBreakdown.getPointsForRank rk else 0
          | none => 0
        ⌊(basePoints : Rat) *
          (if some c == captainScan history d (flagCaptain entries d)
           then mult else 1)⌋)).sum := by
  unfold GetTeamBreakdown.team_total
  dsimp only
  congr 1
  refine List.map_congr_left fun c hc => ?_
  unfold GetTeamBreakdown.totalPoints
  rw [jsMapGet_filter c _ (fun r hrc => by
    rw [hrc]
    exact List.elem_eq_true_of_mem hc) results]

/-! ## Event scorer: calculate-leaderboard
(src/supabase/functions/calculate-leaderboard/index.ts lines 188–252) -/

namespace CalcLeaderboard

/-- One team's score for one completed event in calculate-leaderboard lines
188–252: reconstruct the active roster as of the event date (score 0 when it
is empty), determine the captain, fetch the event results restricted to the
active climbers (the query's `.in("climber_id", activeClimberIds)`) and
accumulate `eventScore += Math.floor(basePoints * multiplier)` over the
result rows. -/
def eventScore (entries : List RosterEntry) (history : List CaptainEntry)
    (results : List ResultRow) (mult : Rat) (d : Instant) : Int :=
  let activeIds := activeClimberIds entries d
  if activeIds.isEmpty then 0
  else
    let captainAtEvent := captainScan history d (flagCaptain entries d)
    let filteredResults := results.filter (fun r => activeIds.contains r.1)
    (filteredResults.map (fun r =>
      ⌊(getPointsForRank r.2 : Rat) *
        (if some r.1 == captainAtEvent then mult else 1)⌋)).sum

end CalcLeaderboard

/-- Folding result rows none of which carries key `k` leaves the
accumulator unchanged. -/
theorem jsFold_acc_of_not_mem (l : List ResultRow) (k : Nat)
    (h : ∀ r ∈ l, r.1 ≠ k) (acc : Option Nat) :
    l.foldl (fun acc r => if r.1 == k then some r.2 else acc) acc = acc := by
  induction l generalizing acc with
  | nil => rfl
  | cons r t ih =>
      rw [List.foldl_cons, if_neg (by simp [h r (List.mem_cons_self r t)])]
      exact ih (fun q hq => h q (List.mem_cons_of_mem r hq)) acc

/-- With duplicate-free keys the last-write-wins JS map lookup agrees with
the first-match `find?`. -/
theorem jsMapGet_eq_find (l : List ResultRow) (h : (l.map Prod.fst).Nodup)
    (k : Nat) :
    jsMapGet l k = (l.find? (fun r => r.1 == k)).map Prod.snd := by
  induction l with
  | nil => rfl
  | cons r t ih =>
      rw [List.map_cons, List.nodup_cons] at h
      obtain ⟨hr, ht⟩ := h
      by_cases hk : (r.1 == k) = true
      · have hkey : ∀ q ∈ t, q.1 ≠ k := by
          intro q hq hqk
          apply hr
          have hrq : r.1 = q.1 := by rw [eq_of_beq hk, hqk]
          rw [hrq]
          exact List.mem_map_of_mem Prod.fst hq
        unfold jsMapGet
        rw [List.foldl_cons, if_pos hk, jsFold_acc_of_not_mem t k hkey,
          List.find?_cons_of_pos (p := fun q : ResultRow => q.1 == k) _ hk]
        rfl
      · unfold jsMapGet at ih ⊢
        rw [List.foldl_cons, if_neg (by simpa using hk),
          List.find?_cons_of_neg _ (by simpa using hk)]
        exact ih ht

/-- Summing `if c = a then A else g c` over duplicate-free `ids` replaces
`g a` by `A` at the single occurrence of `a`, when there is one. -/
theorem sum_map_ite_update (ids : List Nat) (hids : ids.Nodup) (a : Nat)
    (A : Int) (g : Nat → Int) :
    (ids.map (fun c => if c = a then A else g c)).sum =
      (ids.map g).sum + (if a ∈ ids then A - g a else 0) := by
  induction ids with
  | nil => simp
  | cons c t ih =>
      rw [List.nodup_cons] at hids
      obtain ⟨hc, ht⟩ := hids
      by_cases hca : c = a
      · subst hca
        have hmap : t.map (fun x => if x = c then A else g x) = t.map g :=
          List.map_congr_left fun x hx => if_neg (by rintro rfl; exact hc hx)
        simp only [List.map_cons, List.sum_cons, if_pos rfl, hmap,
          List.mem_cons, true_or, if_true]
        ring
      · simp only [List.map_cons, List.sum_cons, if_neg hca, ih ht]
        rw [if_congr (List.mem_cons.trans
          (or_iff_right (fun h => hca h.symm))) rfl rfl]
        ring

/-- Exchange a sum over the result rows restricted to a duplicate-free id
list for a sum over the ids, looking each id up in the rows. -/
theorem sum_filter_eq_sum_ids (f : Nat → Nat → Int) (ids : List Nat)
    (hids : ids.Nodup) :
    ∀ rs : List ResultRow, (rs.map Prod.fst).Nodup →
      ((rs.filter (fun r => ids.contains r.1)).map (fun r => f r.1 r.2)).sum =
        (ids.map (fun c =>
          match rs.find? (fun r => r.1 == c) with
          | some r => f r.1 r.2
          | none => 0)).sum := by
  intro rs
  induction rs with
  | nil =>
      intro _
      simp only [List.filter_nil, List.map_nil, List.sum_nil]
      induction ids with
      | nil => rfl
      | cons c t iht => simp [iht]
  | cons r t ih =>
      intro hnd
      rw [List.map_cons, List.nodup_cons] at hnd
      obtain ⟨hr, ht⟩ := hnd
      have hnone : t.find? (fun q => q.1 == r.1) = none := by
        rw [List.find?_eq_none]
        intro q hq hqk
        exact hr (eq_of_beq hqk ▸ List.mem_map_of_mem Prod.fst hq)
      have hstep : (ids.map (fun c =>
            match (r :: t).find? (fun q => q.1 == c) with
            | some q => f q.1 q.2
            | none => 0)).sum =
          (ids.map (fun c => if c = r.1 then f r.1 r.2 else
            match t.find? (fun q => q.1 == c) with
            | some q => f q.1 q.2
            | none => 0)).sum := by
        refine congrArg List.sum (List.map_congr_left fun c _ => ?_)
        by_cases hcr : c = r.1
        · subst hcr
          rw [List.find?_cons_of_pos _ (by simp), if_pos rfl]
        · rw [List.find?_cons_of_neg _ (by simpa using fun h => hcr (eq_of_beq h).symm),
            if_neg hcr]
      rw [hstep, sum_map_ite_update ids hids r.1 (f r.1 r.2) _, hnone]
      by_cases hmem : r.1 ∈ ids
      · rw [List.filter_cons_of_pos (p := fun q : ResultRow => ids.contains q.1)
            (List.elem_eq_true_of_mem hmem),
          List.map_cons, List.sum_cons, ih ht, if_pos hmem]
        ring
      · rw [List.filter_cons_of_neg (p := fun q : ResultRow => ids.contains q.1) (by
            simpa using fun h => hmem (List.mem_of_elem_eq_true h)),
          ih ht, if_neg hmem]
        ring

/-- On ranks up to 40 (with rank 0 treated as did-not-place by the
breakdown's truthiness test) the two points tables agree. -/
theorem points_tables_agree_le_40 : ∀ rk < 41,
    CalcLeaderboard.getPointsForRank rk =
      (if rk ≠ 0 then GetTeamBreakdown.getPointsForRank rk else 0) := by
  decide

/-- C8 (amended): the leaderboard (calculate-leaderboard) and the per-event
breakdown (get-team-breakdown) run the same roster/captain reconstruction,
and on data satisfying the model invariants (at most one result row per
athlete, at most one active roster entry per athlete) in which every
recorded rank is at most 40 the per-event scores agree; the unqualified
claim fails because the two functions use different points tables (80-entry
with rank > 80 ↦ 1, versus 40-entry with rank > 40 ↦ 0). -/
theorem leaderboard_vs_breakdown_agree (entries : List RosterEntry)
    (history : List CaptainEntry) (results : List ResultRow) (mult : Rat)
    (d : Instant)
    (hranks : ∀ r ∈ results, r.2 ≤ 40)
    (hkeys : (results.map Prod.fst).Nodup)
    (hids : (activeClimberIds entries d).Nodup) :
    CalcLeaderboard.eventScore entries history results mult d =
      GetTeamBreakdown.team_total entries history results mult d := by
  rw [team_total_eq_sum_over_roster]
  unfold CalcLeaderboard.eventScore
  dsimp only
  by_cases hempty : (activeClimberIds entries d).isEmpty
  · rw [if_pos hempty, List.isEmpty_iff.mp hempty]
    rfl
  · rw [if_neg hempty,
      sum_filter_eq_sum_ids
        (fun a rk => ⌊(CalcLeaderboard.getPointsForRank rk : Rat) *
          (if some a == captainScan history d (flagCaptain entries d)
           then mult else 1)⌋)
        (activeClimberIds entries d) hids results hkeys]
    refine congrArg List.sum (List.map_congr_left fun c hc => ?_)
    rw [jsMapGet_eq_find results hkeys c]
    cases hfind : results.find? (fun r => r.1 == c) with
    | none => simp
    | some r =>
        have hr2 : r.2 ≤ 40 := hranks r (List.mem_of_find?_eq_some hfind)
        have hr1 : r.1 = c := by
          have hp := List.find?_some hfind
          simpa using hp
        dsimp only [Option.map_some']
        rw [hr1, points_tables_agree_le_40 r.2 (by omega)]

/-- C8 counterexample: one roster athlete who finished rank 41 at a
completed event (captain multiplier 1).  The leaderboard's 80-entry table
awards 14 points, the breakdown's 40-entry table awards 0, so the per-event
scores reported by the two functions differ on the same data. -/
theorem leaderboard_vs_breakdown_counterexample :
    CalcLeaderboard.eventScore [⟨1, false, 0, none⟩] [] [(1, 41)] 1 10 = 14 ∧
    GetTeamBreakdown.team_total [⟨1, false, 0, none⟩] [] [(1, 41)] 1 10 = 0 ∧
    (14 : Int) ≠ 0 := by
  have h80 : CalcLeaderboard.getPointsForRank 41 = 14 := rfl
  have h40 : GetTeamBreakdown.getPointsForRank 41 = 0 := rfl
  refine ⟨?_, ?_, by decide⟩ <;>
    norm_num [CalcLeaderboard.eventScore, GetTeamBreakdown.team_total,
      GetTeamBreakdown.totalPoints, activeClimberIds, rosterActiveAt,
      flagCaptain, captainScan, jsMapGet, List.filter, h80, h40]

/-- Witness for C8 (amended) on a roster of one athlete with rank 40. -/
theorem leaderboard_vs_breakdown_agree_witness :
    (∀ r ∈ [((1 : Nat), (40 : Nat))], r.2 ≤ 40) ∧
    ([((1 : Nat), (40 : Nat))].map Prod.fst).Nodup ∧
    (activeClimberIds [⟨1, false, 0, none⟩] 10).Nodup ∧
    CalcLeaderboard.eventScore [⟨1, false, 0, none⟩] [] [(1, 40)] 1 10 =
      GetTeamBreakdown.team_total [⟨1, false, 0, none⟩] [] [(1, 40)] 1 10 :=
  ⟨by decide, by decide, by decide,
   leaderboard_vs_breakdown_agree _ _ _ _ _ (by decide) (by decide) (by decide)⟩

/-! ## Transfer write path: create-transfer edge function
(src/supabase/functions/create-transfer/index.ts lines 94–212) -/

/-- The body of a transfer request
(`team_id, after_event_id, climber_out_id, climber_in_id, new_captain_id`,
scoped here to one team). -/
structure TransferCreate where
  after_event_id : Nat
  climber_out_id : Nat
  climber_in_id : Nat
  new_captain_id : Option Nat
deriving DecidableEq, Repr

/-- A row of the `team_transfers` table for one team. -/
structure TransferRow where
  after_event_id : Nat
  climber_out_id : Nat
  climber_in_id : Nat
  created_at : Instant
  reverted_at : Option Instant
deriving DecidableEq, Repr

namespace CreateTransfer

/-- The rows of the three per-team tables touched by create-transfer. -/
structure Db where
  transfers : List TransferRow
  roster : List RosterEntry
  captains : List CaptainEntry
deriving DecidableEq, Repr

/-- The three domain validation failures the edge function can return
(HTTP 400 with the quoted message). -/
inductive Failure where
  /-- `Maximum N transfers per event` -/
  | transferLimit (limit : Nat)
  /-- `Climber to remove is not in roster` -/
  | notInRoster
  /-- `Climber already in roster` -/
  | alreadyInRoster
deriving DecidableEq, Repr

/-- The count query on `team_transfers` (lines 94–100): rows for this
`after_event_id` with `reverted_at` null. -/
def existingTransfers (db : Db) (afterEventId : Nat) : Nat :=
  (db.transfers.filter (fun t =>
    t.after_event_id == afterEventId && t.reverted_at == none)).length

/-- The current-roster query (lines 114–121): open entries
(`removed_at` null), projected to climber ids. -/
def rosterIds (roster : List RosterEntry) : List Nat :=
  (roster.filter (fun r => r.removed_at == none)).map (fun r => r.climber_id)

/-- The `wasCaptain` computation of create-transfer lines 168–172:
`currentRoster.find(r => r.climber_id === climber_out_id)?.is_captain ?? false`. -/
def wasCaptainOf (roster : List RosterEntry) (out : Nat) : Bool :=
  (((roster.filter (fun r => r.removed_at == none)).find?
    (fun r => r.climber_id == out)).map (fun r => r.is_captain)).getD false

/-- create-transfer/index.ts lines 94–212, starting after the
authentication, ownership and league fetches: validate (transfer limit for
the event, outgoing climber in the open roster, incoming climber not in
it), then insert the transfer row, close the outgoing roster entry, insert
the incoming entry, and — when a new captain is supplied or the outgoing
climber was captain — rewrite the open-roster captain flags and append to
`captain_history`, promoting `new_captain_id || climber_in_id`. -/
def serve (transfersPerEvent : Nat) (req : TransferCreate) (now : Instant)
    (db : Db) : Except Failure TransferRow × Db :=
  if transfersPerEvent ≤ existingTransfers db req.after_event_id then
    (.error (.transferLimit transfersPerEvent), db)
  else
    let currentRoster := db.roster.filter (fun r => r.removed_at == none)
    let ids := currentRoster.map (fun r => r.climber_id)
    if ¬ ids.contains req.climber_out_id then
      (.error .notInRoster, db)
    else if ids.contains req.climber_in_id then
      (.error .alreadyInRoster, db)
    else
      let transfer : TransferRow :=
        ⟨req.after_event_id, req.climber_out_id, req.climber_in_id, now, none⟩
      let transfers := db.transfers ++ [transfer]
      let roster1 := db.roster.map (fun r =>
        if r.climber_id == req.climber_out_id && r.removed_at == none
        then { r with removed_at := some now } else r)
      let wasCaptain := wasCaptainOf db.roster req.climber_out_id
      let roster2 := roster1 ++
        [⟨req.climber_in_id, wasCaptain && req.new_captain_id == none, now, none⟩]
      if req.new_captain_id.isSome || wasCaptain then
        let captainId := req.new_captain_id.getD req.climber_in_id
        let roster3 := roster2.map (fun r =>
          if r.removed_at == none then { r with is_captain := false } else r)
        let roster4 := roster3.map (fun r =>
          if r.climber_id == captainId && r.removed_at == none
          then { r with is_captain := true } else r)
        let captains1 := db.captains.map (fun ch =>
          if ch.replaced_at == none then { ch with replaced_at := some now } else ch)
        (.ok transfer, ⟨transfers, roster4, captains1 ++ [⟨captainId, now, none⟩]⟩)
      else
        (.ok transfer, ⟨transfers, roster2, db.captains⟩)

end CreateTransfer

/-- C4 counterexample: a proposal whose outgoing athlete is NOT in the
roster while the per-event transfer count is already at the limit fails
with the transfer-limit error, not with `NotInRoster` — the limit check
runs first, contradicting the claimed order. -/
theorem transfer_validation_order_counterexample :
    (CreateTransfer.serve 1 ⟨7, 5, 6, none⟩ 10
        ⟨[⟨7, 1, 2, 0, none⟩], [], []⟩).1 =
      .error (.transferLimit 1) ∧
    CreateTransfer.Failure.transferLimit 1 ≠ .notInRoster := by
  exact ⟨rfl, by decide⟩

/-- C4 (amended): create-transfer validates fail-fast in the order
1) per-event transfer limit, 2) outgoing climber in the open roster
(`NotInRoster`), 3) incoming climber not already in it (`AlreadyRostered`);
it performs no tier-limit and no captain-reassignment check at all, and
when several preconditions are violated the earliest in THIS order is
reported. -/
theorem transfer_validation_order (transfersPerEvent : Nat)
    (req : TransferCreate) (now : Instant) (db : CreateTransfer.Db) :
    (transfersPerEvent ≤ CreateTransfer.existingTransfers db req.after_event_id →
      (CreateTransfer.serve transfersPerEvent req now db).1 =
        .error (.transferLimit transfersPerEvent)) ∧
    (CreateTransfer.existingTransfers db req.after_event_id < transfersPerEvent →
      req.climber_out_id ∉ CreateTransfer.rosterIds db.roster →
      (CreateTransfer.serve transfersPerEvent req now db).1 = .error .notInRoster) ∧
    (CreateTransfer.existingTransfers db req.after_event_id < transfersPerEvent →
      req.climber_out_id ∈ CreateTransfer.rosterIds db.roster →
      req.climber_in_id ∈ CreateTransfer.rosterIds db.roster →
      (CreateTransfer.serve transfersPerEvent req now db).1 =
        .error .alreadyInRoster) := by
  have hmm : ∀ (roster : List RosterEntry) (c : Nat),
      ((roster.filter (fun r => r.removed_at == none)).map
        (fun r => r.climber_id)).contains c = true ↔
        c ∈ CreateTransfer.rosterIds roster := fun roster c =>
    ⟨List.mem_of_elem_eq_true, List.elem_eq_true_of_mem⟩
  unfold CreateTransfer.serve
  refine ⟨fun h1 => ?_, fun h1 h2 => ?_, fun h1 h2 h3 => ?_⟩
  · rw [if_pos h1]
  · rw [if_neg (by omega), if_pos (fun h => h2 ((hmm db.roster _).mp h))]
  · rw [if_neg (by omega),
      if_neg (not_not_intro ((hmm db.roster _).mpr h2)),
      if_pos ((hmm db.roster _).mpr h3)]

/-- Witness for C4 (amended): the three branches exercised on concrete
states. -/
theorem transfer_validation_order_witness :
    ((1 : Nat) ≤ CreateTransfer.existingTransfers ⟨[⟨7, 1, 2, 0, none⟩], [], []⟩ 7 ∧
      (CreateTransfer.serve 1 ⟨7, 5, 6, none⟩ 10 ⟨[⟨7, 1, 2, 0, none⟩], [], []⟩).1 =
        .error (.transferLimit 1)) ∧
    (CreateTransfer.existingTransfers ⟨[], [], []⟩ 7 < 1 ∧
      (5 : Nat) ∉ CreateTransfer.rosterIds ([] : List RosterEntry) ∧
      (CreateTransfer.serve 1 ⟨7, 5, 6, none⟩ 10 ⟨[], [], []⟩).1 =
        .error .notInRoster) ∧
    (CreateTransfer.existingTransfers ⟨[], [⟨5, false, 0, none⟩, ⟨6, false, 0, none⟩], []⟩ 7 < 1 ∧
      (5 : Nat) ∈ CreateTransfer.rosterIds [⟨5, false, 0, none⟩, ⟨6, false, 0, none⟩] ∧
      (6 : Nat) ∈ CreateTransfer.rosterIds [⟨5, false, 0, none⟩, ⟨6, false, 0, none⟩] ∧
      (CreateTransfer.serve 1 ⟨7, 5, 6, none⟩ 10
          ⟨[], [⟨5, false, 0, none⟩, ⟨6, false, 0, none⟩], []⟩).1 =
        .error .alreadyInRoster) :=
  ⟨⟨by decide, (transfer_validation_order 1 ⟨7, 5, 6, none⟩ 10
      ⟨[⟨7, 1, 2, 0, none⟩], [], []⟩).1 (by decide)⟩,
   ⟨by decide, by decide, (transfer_validation_order 1 ⟨7, 5, 6, none⟩ 10
      ⟨[], [], []⟩).2.1 (by decide) (by decide)⟩,
   ⟨by decide, by decide, by decide,
    (transfer_validation_order 1 ⟨7, 5, 6, none⟩ 10
      ⟨[], [⟨5, false, 0, none⟩, ⟨6, false, 0, none⟩], []⟩).2.2
      (by decide) (by decide) (by decide)⟩⟩

/-! ## Transfer write path: frontend `teamsAPI.createTransfer`
(src/frontend/src/services/api.ts lines 674–823) — the path called by the
transfer UI (TransferSection.tsx line 105); it alone checks tier caps. -/

namespace ApiTs

/-- One entry of the league's `tier_config.tiers`
(`name, max_rank, max_per_team`). -/
structure Tier where
  name : String
  max_rank : Option Nat
  max_per_team : Option Nat
deriving DecidableEq, Repr

/-- The domain failure thrown by the frontend transfer validation (api.ts
lines 765–769): `Transfer violates tier limit: maximum CAP Tier NAME
athletes allowed`, modelled with the interpolated tier name and cap. -/
inductive Failure where
  | tierLimitExceeded (name : String) (cap : Nat)
deriving DecidableEq, Repr

/-- api.ts lines 713–725: the prospective roster — open entries minus the
outgoing climber (`.filter(id => id !== climber_out_id)`) plus the incoming
climber. -/
def prospectiveRosterIds (roster : List RosterEntry) (req : TransferCreate) :
    List Nat :=
  (((roster.filter (fun r => r.removed_at == none)).map
    (fun r => r.climber_id)).filter (fun id => id != req.climber_out_id)) ++
    [req.climber_in_id]

/-- api.ts lines 727–737: the rankings query restricted to the prospective
roster (`.in("climber_id", newRosterIds)`), from which `rankMap` is built. -/
def rankMapFor (rankings : List (Nat × Nat)) (ids : List Nat) :
    List (Nat × Nat) :=
  rankings.filter (fun r => ids.contains r.1)

/-- `getTier` of api.ts lines 740–752: unranked climbers go to the last
tier; otherwise the first tier whose `max_rank` is null or at least the
climber's rank wins, falling back to the last tier. -/
def getTier (tierConfig : List Tier) (rankMap : List (Nat × Nat))
    (climberId : Nat) : String :=
  match jsMapGet rankMap climberId with
  | none => ((tierConfig.getLast?).map (fun t => t.name)).getD "?"
  | some rank =>
      match tierConfig.find? (fun t =>
        match t.max_rank with
        | none => true
        | some m => decide (rank ≤ m)) with
      | some t => t.name
      | none => ((tierConfig.getLast?).map (fun t => t.name)).getD "?"

/-- api.ts lines 754–759: how many of `ids` fall in the tier named
`name`. -/
def tierCount (tierConfig : List Tier) (rankMap : List (Nat × Nat))
    (ids : List Nat) (name : String) : Nat :=
  (ids.filter (fun c => getTier tierConfig rankMap c == name)).length

/-- api.ts lines 762–771: the first configured tier (in order) whose
non-null `max_per_team` cap is exceeded by the prospective roster, if
any — the loop throws at the first violation. -/
def offendingTier (tierConfig : List Tier) (rankMap : List (Nat × Nat))
    (ids : List Nat) : Option Tier :=
  tierConfig.find? (fun t =>
    match t.max_per_team with
    | none => false
    | some cap => decide (cap < tierCount tierConfig rankMap ids t.name))

/-- `teamsAPI.createTransfer` of api.ts lines 674–823, starting after the
ownership and league fetches: build the prospective roster and its tier
counts, throw `tierLimitExceeded` at the first violated cap, otherwise
insert the transfer row, close the outgoing open roster entry, insert the
incoming entry with `is_captain: false`, and — only when a `new_captain_id`
was supplied — rewrite the open-roster captain flags.  (This function never
writes `captain_history`.) -/
def createTransfer (tierConfig : List Tier) (rankings : List (Nat × Nat))
    (req : TransferCreate) (now : Instant) (roster : List RosterEntry) :
    Except Failure TransferRow × List RosterEntry :=
  let newRosterIds := prospectiveRosterIds roster req
  let rankMap := rankMapFor rankings newRosterIds
  match offendingTier tierConfig rankMap newRosterIds with
  | some t => (.error (.tierLimitExceeded t.name (t.max_per_team.getD 0)), roster)
  | none =>
      let transfer : TransferRow :=
        ⟨req.after_event_id, req.climber_out_id, req.climber_in_id, now, none⟩
      let roster1 := roster.map (fun r =>
        if r.climber_id == req.climber_out_id && r.removed_at == none
        then { r with removed_at := some now } else r)
      let roster2 := roster1 ++ [⟨req.climber_in_id, false, now, none⟩]
      match req.new_captain_id with
      | some capId =>
          let roster3 := roster2.map (fun r =>
            if r.removed_at == none then { r with is_captain := false } else r)
          (.ok transfer, roster3.map (fun r =>
            if r.climber_id == capId && r.removed_at == none
            then { r with is_captain := true } else r))
      | none => (.ok transfer, roster2)

end ApiTs

/-- C5: a transfer proposal whose prospective roster (current minus
outgoing plus incoming) exceeds some tier's non-null per-team cap fails
with a `tierLimitExceeded` error naming an offending tier and its cap, and
the roster log is unchanged afterward. -/
theorem tier_limit_rejected (tierConfig : List ApiTs.Tier)
    (rankings : List (Nat × Nat)) (req : TransferCreate) (now : Instant)
    (roster : List RosterEntry)
    (h : ∃ t ∈ tierConfig, ∃ cap, t.max_per_team = some cap ∧
      cap < ApiTs.tierCount tierConfig
        (ApiTs.rankMapFor rankings (ApiTs.prospectiveRosterIds roster req))
        (ApiTs.prospectiveRosterIds roster req) t.name) :
    (∃ t ∈ tierConfig, ∃ cap, t.max_per_team = some cap ∧
      (ApiTs.createTransfer tierConfig rankings req now roster).1 =
        .error (.tierLimitExceeded t.name cap) ∧
      cap < ApiTs.tierCount tierConfig
        (ApiTs.rankMapFor rankings (ApiTs.prospectiveRosterIds roster req))
        (ApiTs.prospectiveRosterIds roster req) t.name) ∧
    (ApiTs.createTransfer tierConfig rankings req now roster).2 = roster := by
  obtain ⟨t0, ht0, cap0, hcap0, hlt0⟩ := h
  have hsome : (ApiTs.offendingTier tierConfig
      (ApiTs.rankMapFor rankings (ApiTs.prospectiveRosterIds roster req))
      (ApiTs.prospectiveRosterIds roster req)).isSome := by
    unfold ApiTs.offendingTier
    rw [List.find?_isSome]
    exact ⟨t0, ht0, by rw [hcap0]; exact decide_eq_true hlt0⟩
  obtain ⟨t, hfind⟩ := Option.isSome_iff_exists.mp hsome
  have hmem : t ∈ tierConfig := List.mem_of_find?_eq_some hfind
  have hpt := List.find?_some hfind
  unfold ApiTs.createTransfer
  dsimp only
  rw [hfind]
  dsimp only
  cases hmpt : t.max_per_team with
  | none =>
      rw [hmpt] at hpt
      exact absurd hpt (by simp)
  | some cap =>
      refine ⟨⟨t, hmem, cap, hmpt, rfl, ?_⟩, rfl⟩
      rw [hmpt] at hpt
      exact of_decide_eq_true hpt

/-- Witness for C5: concrete scenario C — tier `S` caps athletes ranked
at most 10 at 2 per team; the roster already holds climbers 1 and 2 (ranked
3 and 5), and transferring climber 3 (rank 50) out for climber 4 (rank 7)
would put a third rank-≤10 athlete on the team. -/
theorem tier_limit_rejected_witness :
    (∃ t ∈ [ApiTs.Tier.mk "S" (some 10) (some 2), ApiTs.Tier.mk "B" none none],
      ∃ cap, t.max_per_team = some cap ∧
      cap < ApiTs.tierCount
        [ApiTs.Tier.mk "S" (some 10) (some 2), ApiTs.Tier.mk "B" none none]
        (ApiTs.rankMapFor [(1, 3), (2, 5), (3, 50), (4, 7)]
          (ApiTs.prospectiveRosterIds
            [⟨1, false, 0, none⟩, ⟨2, false, 0, none⟩, ⟨3, false, 0, none⟩]
            ⟨9, 3, 4, none⟩))
        (ApiTs.prospectiveRosterIds
          [⟨1, false, 0, none⟩, ⟨2, false, 0, none⟩, ⟨3, false, 0, none⟩]
          ⟨9, 3, 4, none⟩) t.name) ∧
    ((∃ t ∈ [ApiTs.Tier.mk "S" (some 10) (some 2), ApiTs.Tier.mk "B" none none],
      ∃ cap, t.max_per_team = some cap ∧
      (ApiTs.createTransfer
        [ApiTs.Tier.mk "S" (some 10) (some 2), ApiTs.Tier.mk "B" none none]
        [(1, 3), (2, 5), (3, 50), (4, 7)] ⟨9, 3, 4, none⟩ 100
        [⟨1, false, 0, none⟩, ⟨2, false, 0, none⟩, ⟨3, false, 0, none⟩]).1 =
          .error (.tierLimitExceeded t.name cap) ∧
      cap < ApiTs.tierCount
        [ApiTs.Tier.mk "S" (some 10) (some 2), ApiTs.Tier.mk "B" none none]
        (ApiTs.rankMapFor [(1, 3), (2, 5), (3, 50), (4, 7)]
          (ApiTs.prospectiveRosterIds
            [⟨1, false, 0, none⟩, ⟨2, false, 0, none⟩, ⟨3, false, 0, none⟩]
            ⟨9, 3, 4, none⟩))
        (ApiTs.prospectiveRosterIds
          [⟨1, false, 0, none⟩, ⟨2, false, 0, none⟩, ⟨3, false, 0, none⟩]
          ⟨9, 3, 4, none⟩) t.name) ∧
    (ApiTs.createTransfer
      [ApiTs.Tier.mk "S" (some 10) (some 2), ApiTs.Tier.mk "B" none none]
      [(1, 3), (2, 5), (3, 50), (4, 7)] ⟨9, 3, 4, none⟩ 100
      [⟨1, false, 0, none⟩, ⟨2, false, 0, none⟩, ⟨3, false, 0, none⟩]).2 =
      [⟨1, false, 0, none⟩, ⟨2, false, 0, none⟩, ⟨3, false, 0, none⟩]) :=
  ⟨by decide, tier_limit_rejected _ _ _ _ _ (by decide)⟩

/-- Bridging `List.contains` on the open-roster projection with membership
in `rosterIds`. -/
theorem contains_rosterIds (roster : List RosterEntry) (c : Nat) :
    ((roster.filter (fun r => r.removed_at == none)).map
      (fun r => r.climber_id)).contains c = true ↔
      c ∈ CreateTransfer.rosterIds roster :=
  ⟨List.mem_of_elem_eq_true, List.elem_eq_true_of_mem⟩

/-- C6 counterexample: the team's captain (climber 1) is transferred out
for climber 2 with no `new_captain_id`; create-transfer succeeds (no
`CaptainReassignmentRequired` failure exists) and silently promotes the
incoming climber 2 to captain, both in the roster flags and in
`captain_history`. -/
theorem captain_reassignment_counterexample :
    (CreateTransfer.serve 5 ⟨7, 1, 2, none⟩ 10
        ⟨[], [⟨1, true, 0, none⟩], [⟨1, 0, none⟩]⟩).1 =
      .ok ⟨7, 1, 2, 10, none⟩ ∧
    (CreateTransfer.serve 5 ⟨7, 1, 2, none⟩ 10
        ⟨[], [⟨1, true, 0, none⟩], [⟨1, 0, none⟩]⟩).2.roster =
      [⟨1, true, 0, some 10⟩, ⟨2, true, 10, none⟩] ∧
    (CreateTransfer.serve 5 ⟨7, 1, 2, none⟩ 10
        ⟨[], [⟨1, true, 0, none⟩], [⟨1, 0, none⟩]⟩).2.captains =
      [⟨1, 0, some 10⟩, ⟨2, 10, none⟩] :=
  ⟨rfl, rfl, rfl⟩

/-- C6 (amended): when the outgoing athlete is the current captain and no
new captain id is supplied, create-transfer does NOT fail: it succeeds and
silently promotes the incoming athlete to captain — the final roster log
ends with an open, captain-flagged entry for the incoming climber and
`captain_history` gets all open entries closed and a new open entry for
the incoming climber appended. -/
theorem captain_transfer_promotes_incoming (lim : Nat) (req : TransferCreate)
    (now : Instant) (db : CreateTransfer.Db)
    (hlim : CreateTransfer.existingTransfers db req.after_event_id < lim)
    (hout : req.climber_out_id ∈ CreateTransfer.rosterIds db.roster)
    (hin : req.climber_in_id ∉ CreateTransfer.rosterIds db.roster)
    (hcap : CreateTransfer.wasCaptainOf db.roster req.climber_out_id = true)
    (hnew : req.new_captain_id = none) :
    (CreateTransfer.serve lim req now db).1 =
      .ok ⟨req.after_event_id, req.climber_out_id, req.climber_in_id, now, none⟩ ∧
    (∃ rest, (CreateTransfer.serve lim req now db).2.roster =
      rest ++ [⟨req.climber_in_id, true, now, none⟩]) ∧
    (CreateTransfer.serve lim req now db).2.captains =
      db.captains.map (fun ch =>
        if ch.replaced_at == none then { ch with replaced_at := some now } else ch)
        ++ [⟨req.climber_in_id, now, none⟩] := by
  unfold CreateTransfer.serve
  dsimp only
  rw [if_neg (by omega),
    if_neg (not_not_intro ((contains_rosterIds db.roster _).mpr hout)),
    if_neg (fun h => hin ((contains_rosterIds db.roster _).mp h)),
    hcap, hnew]
  refine ⟨rfl, ⟨((db.roster.map (fun r =>
      if r.climber_id == req.climber_out_id && r.removed_at == none
      then { r with removed_at := some now } else r)).map (fun r =>
      if r.removed_at == none then { r with is_captain := false } else r)).map
      (fun r =>
      if r.climber_id == req.climber_in_id && r.removed_at == none
      then { r with is_captain := true } else r), ?_⟩, rfl⟩
  simp [List.map_append]

/-- Witness for C6 (amended) on the concrete captain-transfer scenario. -/
theorem captain_transfer_promotes_incoming_witness :
    (CreateTransfer.existingTransfers ⟨[], [⟨1, true, 0, none⟩], [⟨1, 0, none⟩]⟩ 7 < 5 ∧
     (1 : Nat) ∈ CreateTransfer.rosterIds [⟨1, true, 0, none⟩] ∧
     (2 : Nat) ∉ CreateTransfer.rosterIds [⟨1, true, 0, none⟩] ∧
     CreateTransfer.wasCaptainOf [⟨1, true, 0, none⟩] 1 = true) ∧
    ((CreateTransfer.serve 5 ⟨7, 1, 2, none⟩ 10
        ⟨[], [⟨1, true, 0, none⟩], [⟨1, 0, none⟩]⟩).1 =
      .ok ⟨7, 1, 2, 10, none⟩ ∧
     (∃ rest, (CreateTransfer.serve 5 ⟨7, 1, 2, none⟩ 10
        ⟨[], [⟨1, true, 0, none⟩], [⟨1, 0, none⟩]⟩).2.roster =
       rest ++ [⟨2, true, 10, none⟩]) ∧
     (CreateTransfer.serve 5 ⟨7, 1, 2, none⟩ 10
        ⟨[], [⟨1, true, 0, none⟩], [⟨1, 0, none⟩]⟩).2.captains =
       [⟨1, 0, none⟩].map (fun ch =>
         if ch.replaced_at == none then { ch with replaced_at := some 10 } else ch)
         ++ [⟨2, 10, none⟩]) :=
  ⟨⟨by decide, by decide, by decide, by decide⟩,
   captain_transfer_promotes_incoming 5 ⟨7, 1, 2, none⟩ 10
     ⟨[], [⟨1, true, 0, none⟩], [⟨1, 0, none⟩]⟩
     (by decide) (by decide) (by decide) (by decide) rfl⟩

/-- C3: both transfer write paths are atomic with respect to validation:
whenever a proposal fails any validation check (the edge function's
transfer-limit / not-in-roster / already-rostered checks, or the
frontend's tier-cap check), the roster-change and captaincy-change logs
after the failed call are exactly the logs before it — validation happens
strictly before the first mutation, so no partial application is
observable. -/
theorem propose_transfer_atomic :
    (∀ (lim : Nat) (req : TransferCreate) (now : Instant)
        (db : CreateTransfer.Db) (e : CreateTransfer.Failure),
      (CreateTransfer.serve lim req now db).1 = .error e →
        (CreateTransfer.serve lim req now db).2 = db) ∧
    (∀ (tierConfig : List ApiTs.Tier) (rankings : List (Nat × Nat))
        (req : TransferCreate) (now : Instant) (roster : List RosterEntry)
        (e : ApiTs.Failure),
      (ApiTs.createTransfer tierConfig rankings req now roster).1 = .error e →
        (ApiTs.createTransfer tierConfig rankings req now roster).2 = roster) := by
  constructor
  · intro lim req now db e h
    unfold CreateTransfer.serve at h ⊢
    dsimp only at h ⊢
    split_ifs at h ⊢ <;> rfl
  · intro tierConfig rankings req now roster e h
    unfold ApiTs.createTransfer at h ⊢
    dsimp only at h ⊢
    cases hfind : ApiTs.offendingTier tierConfig
        (ApiTs.rankMapFor rankings (ApiTs.prospectiveRosterIds roster req))
        (ApiTs.prospectiveRosterIds roster req) with
    | some t => rfl
    | none =>
        rw [hfind] at h
        cases hnc : req.new_captain_id with
        | some c => rw [hnc] at h; simp at h
        | none => rw [hnc] at h; simp at h

/-- Witness for C3: a failed transfer-limit call and a failed tier-cap
call, each leaving its logs unchanged. -/
theorem propose_transfer_atomic_witness :
    (CreateTransfer.serve 0 ⟨1, 2, 3, none⟩ 5 ⟨[], [], []⟩).2 = ⟨[], [], []⟩ ∧
    (ApiTs.createTransfer [⟨"S", none, some 0⟩] [] ⟨1, 2, 3, none⟩ 5 []).2 = [] :=
  ⟨propose_transfer_atomic.1 0 ⟨1, 2, 3, none⟩ 5 ⟨[], [], []⟩
     (.transferLimit 0) rfl,
   propose_transfer_atomic.2 [⟨"S", none, some 0⟩] [] ⟨1, 2, 3, none⟩ 5 []
     (.tierLimitExceeded "S" 0) rfl⟩

/-! ## Frontend direct-Supabase scoring views (src/frontend/src/services/api.ts):
`teamsAPI.getEventBreakdown` (lines 426–529),
`teamsAPI.getLeagueEventBreakdown` (lines 531–650, per team) and
`leaderboardAPI.getByLeague` (lines 1010–1129, per team). -/

namespace ApiTs

/-- A row of `events` as read by the frontend views
(`id, date, status`). -/
structure EventRow where
  id : Nat
  date : Instant
  status : String
deriving DecidableEq, Repr

/-- One athlete line of a frontend breakdown
(`climber_id, is_captain, rank, base_points, total_points`). -/
structure AthleteScore where
  climber_id : Nat
  is_captain : Bool
  rank : Option Nat
  base_points : Nat
  total_points : Int
deriving DecidableEq, Repr

/-- One event of a frontend breakdown (`event_id, team_total,
athlete_scores`). -/
structure EventBreakdownRow where
  event_id : Nat
  team_total : Int
  athlete_scores : List AthleteScore
deriving DecidableEq, Repr

/-- The data one team's frontend views read: the team's full roster-change
log, its captaincy-change log (which no frontend view reads), the league's
events, the per-event results and the captain multiplier. -/
structure TeamState where
  roster : List RosterEntry
  captains : List CaptainEntry
  events : List EventRow
  results : Nat → List ResultRow
  captain_multiplier : Rat

/-- The roster query all three frontend views issue:
`.select("climber_id, is_captain").is("removed_at", null)` — only the OPEN
entries, projected to `(climber_id, is_captain)`; the `added_at` /
`removed_at` instants are not even selected. -/
def openRosterProj (roster : List RosterEntry) : List (Nat × Bool) :=
  (roster.filter (fun r => r.removed_at == none)).map
    (fun r => (r.climber_id, r.is_captain))

/-- `teamsAPI.getEventBreakdown` (api.ts lines 426–529): one breakdown row
per league event, each scoring the CURRENT open roster (with
`captainId = roster.find(r => r.is_captain)?.climber_id`) against that
event's results; the event's date is never consulted.  As in
`GetTeamBreakdown.team_total`, the climber-details fetch is modelled by
mapping over the climber ids directly. -/
def getEventBreakdown (s : TeamState) : List EventBreakdownRow :=
  let roster := openRosterProj s.roster
  let climberIds := roster.map (fun r => r.1)
  let captainId := (roster.find? (fun r => r.2)).map (fun r => r.1)
  s.events.map (fun ev =>
    let results := (s.results ev.id).filter (fun r => climberIds.contains r.1)
    let athleteScores := climberIds.map (fun c =>
      let rank := jsMapGet results c
      let basePoints : Nat :=
        match rank with
        | some rk => if rk ≠ 0 then getPointsForRank rk else 0
        | none => 0
      let isCaptain := some c == captainId
      let multiplier : Rat := if isCaptain then s.captain_multiplier else 1
      AthleteScore.mk c isCaptain rank basePoints
        ⌊(basePoints : Rat) * multiplier⌋)
    ⟨ev.id, (athleteScores.map (fun a => a.total_points)).sum, athleteScores⟩)

/-- One team's slice of `teamsAPI.getLeagueEventBreakdown` (api.ts lines
566–635): per event, the empty-roster short-circuit pushes total 0 with no
athletes; otherwise the same current-roster scoring as
`getEventBreakdown` (field `points` instead of `total_points`). -/
def getLeagueEventBreakdownTeam (s : TeamState) : List EventBreakdownRow :=
  let roster := openRosterProj s.roster
  let climberIds := roster.map (fun r => r.1)
  let captainId := (roster.find? (fun r => r.2)).map (fun r => r.1)
  s.events.map (fun ev =>
    if climberIds.isEmpty then ⟨ev.id, 0, []⟩
    else
      let results := (s.results ev.id).filter (fun r => climberIds.contains r.1)
      let athleteScores := climberIds.map (fun c =>
        let rank := jsMapGet results c
        let basePoints : Nat :=
          match rank with
          | some rk => if rk ≠ 0 then getPointsForRank rk else 0
          | none => 0
        let isCaptain := some c == captainId
        let multiplier : Rat := if isCaptain then s.captain_multiplier else 1
        AthleteScore.mk c isCaptain rank basePoints
          ⌊(basePoints : Rat) * multiplier⌋)
      ⟨ev.id, (athleteScores.map (fun a => a.total_points)).sum, athleteScores⟩)

/-- One team's `event_scores` in `leaderboardAPI.getByLeague` (api.ts lines
1062–1108): the empty-roster short-circuit yields no event scores;
otherwise, for each COMPLETED event, the sum over its result rows
restricted to the current open roster of
`Math.floor(getPointsForRank(rank) * multiplier)`, with the captain taken
from the current `is_captain` flags. -/
def getByLeagueEventScores (s : TeamState) : List (Nat × Int) :=
  let roster := openRosterProj s.roster
  if roster.isEmpty then []
  else
    let climberIds := roster.map (fun r => r.1)
    let captainId := (roster.find? (fun r => r.2)).map (fun r => r.1)
    (s.events.filter (fun ev => ev.status == "completed")).map (fun ev =>
      let results := (s.results ev.id).filter (fun r => climberIds.contains r.1)
      (ev.id, (results.map (fun r =>
        ⌊(getPointsForRank r.2 : Rat) *
          (if some r.1 == captainId then s.captain_multiplier else 1)⌋)).sum))

end ApiTs

/-- C10: the frontend direct-Supabase scoring views score, for EVERY event
identically and regardless of the event's date, exactly the athletes with
an open roster entry (`removed_at` null), applying the captain from the
currently set `is_captain` flag; the entries' `added_at`/`removed_at`
instants and the `captain_history` log play no role, so two states with
the same open-roster projection — e.g. before and after closing old
entries retroactively — produce identical outputs in all three views. -/
theorem frontend_views_use_current_roster :
    (∀ s : ApiTs.TeamState, ∀ row ∈ ApiTs.getEventBreakdown s,
      row.athlete_scores.map (fun a => a.climber_id) =
        (ApiTs.openRosterProj s.roster).map (fun r => r.1) ∧
      ∀ a ∈ row.athlete_scores,
        a.is_captain = (some a.climber_id ==
          ((ApiTs.openRosterProj s.roster).find? (fun r => r.2)).map
            (fun r => r.1))) ∧
    (∀ s s' : ApiTs.TeamState,
      ApiTs.openRosterProj s.roster = ApiTs.openRosterProj s'.roster →
      s.events = s'.events → s.results = s'.results →
      s.captain_multiplier = s'.captain_multiplier →
      ApiTs.getEventBreakdown s = ApiTs.getEventBreakdown s' ∧
      ApiTs.getLeagueEventBreakdownTeam s = ApiTs.getLeagueEventBreakdownTeam s' ∧
      ApiTs.getByLeagueEventScores s = ApiTs.getByLeagueEventScores s') := by
  constructor
  · intro s row hrow
    unfold ApiTs.getEventBreakdown at hrow
    obtain ⟨ev, hev, rfl⟩ := List.mem_map.mp hrow
    dsimp only
    constructor
    · rw [List.map_map]
      simp [Function.comp]
    · intro a ha
      obtain ⟨c, hc, rfl⟩ := List.mem_map.mp ha
      rfl
  · intro s s' hroster hevents hresults hmult
    refine ⟨?_, ?_, ?_⟩
    · unfold ApiTs.getEventBreakdown
      rw [hroster, hevents, hresults, hmult]
    · unfold ApiTs.getLeagueEventBreakdownTeam
      rw [hroster, hevents, hresults, hmult]
    · unfold ApiTs.getByLeagueEventScores
      rw [hroster, hevents, hresults, hmult]

/-- Witness for C10: two states whose roster logs differ in timestamps and
closed entries and whose captaincy logs differ entirely, but whose
open-roster projections agree, get identical breakdowns. -/
theorem frontend_views_use_current_roster_witness :
    ApiTs.openRosterProj [⟨1, true, 0, none⟩] =
      ApiTs.openRosterProj [⟨1, true, 50, none⟩, ⟨2, false, 0, some 10⟩] ∧
    ApiTs.getEventBreakdown
        ⟨[⟨1, true, 0, none⟩], [], [⟨5, 100, "completed"⟩], fun _ => [], 1⟩ =
      ApiTs.getEventBreakdown
        ⟨[⟨1, true, 50, none⟩, ⟨2, false, 0, some 10⟩], [⟨9, 0, none⟩],
         [⟨5, 100, "completed"⟩], fun _ => [], 1⟩ :=
  ⟨by decide,
   (frontend_views_use_current_roster.2
     ⟨[⟨1, true, 0, none⟩], [], [⟨5, 100, "completed"⟩], fun _ => [], 1⟩
     ⟨[⟨1, true, 50, none⟩, ⟨2, false, 0, some 10⟩], [⟨9, 0, none⟩],
      [⟨5, 100, "completed"⟩], fun _ => [], 1⟩
     (by decide) rfl rfl rfl).1⟩

end FantasyClimbing
